import Mathlib

/-!
# Provisioning backend: sources client and AWS reservation handler

A shallow embedding of

* `internal/clients/http/sources/sources_client.go`
  (`filterSourceAuthentications`, `loadAppId`, `GetProvisioningTypeId`, `GetArn`), and
* `internal/services/aws_reservation_service.go` (`CreateAWSReservation`).

Go functions returning `(T, error)` become functions returning `T × Option GoError`;
code that can hit a runtime fault (nil dereference, index out of range) returns a `Run`.
The process-wide application type cache and the log of upstream requests are
threaded explicitly as a `ClientState`.  The HTTP handler is embedded as the
chronological list of collaborator calls and responses it performs.
-/

namespace Provisioning

/-! ## Errors -/

/-- Error values that are compared by identity or by type: the sentinel errors of
packages `clients` and `clients/http`, the typed `dao.NoRowsError`, the status-carrying
upstream error, and any other error value (tagged by its message). -/
inductive ErrLeaf where
  | NotFoundErr
  | ApplicationNotFoundErr
  | AuthenticationForSourcesNotFoundErr
  | ApplicationTypeNotFoundErr
  | SourceNotFoundErr
  | MoreThenOneAuthenticationForSourceErr
  | AuthenticationSourceAssociationErr
  | NoRowsError (msg : String)
  | upstreamStatus (statusCode : Int)
  | other (msg : String)
  deriving DecidableEq, Repr

/-- A Go error value: a leaf, or `fmt.Errorf("text: %w", inner)` around another error. -/
inductive GoError where
  | leaf (e : ErrLeaf)
  | wrap (text : String) (inner : GoError)
  deriving DecidableEq, Repr

/-- Go `errors.Is(err, target)` for a sentinel target: walks the `%w` chain. -/
def errorsIs : GoError → ErrLeaf → Bool
  | .leaf e, target => decide (e = target)
  | .wrap _ inner, target => errorsIs inner target

/-- Go `errors.As(err, &e)` with `e` of type `dao.NoRowsError`: some error in the
chain has that type. -/
def errorsAsNoRows : GoError → Bool
  | .leaf (.NoRowsError _) => true
  | .leaf _ => false
  | .wrap _ inner => errorsAsNoRows inner

/-- Modelled from the spec: `HandleHTTPResponses` of package `internal/clients/http` is
not in the source tree.  Per the spec, a not-found status maps to the not-found error
(the one the callers test with `errors.Is(err, clients.NotFoundErr)`), any other
non-success status maps to a generic upstream error carrying the status code, and a
success status gives no error.  The client functions below take the status handler as
a parameter; this instance is used for concrete runs. -/
def http.HandleHTTPResponses (statusCode : Int) : Option GoError :=
  if statusCode = 404 then some (.leaf .NotFoundErr)
  else if 200 ≤ statusCode ∧ statusCode < 300 then none
  else some (.leaf (.upstreamStatus statusCode))

/-! ## Runtime faults -/

/-- The two Go runtime faults the embedded code can raise. -/
inductive PanicKind where
  | nilDereference
  | indexOutOfRange (index length : Nat)
  deriving DecidableEq, Repr

/-- Outcome of running code that may fault: it returns a value or panics. -/
inductive Run (α : Type) where
  | ret (v : α)
  | panic (p : PanicKind)
  deriving DecidableEq, Repr

/-! ## Upstream data -/

/-- The generated `AuthenticationRead`, restricted to the fields the client reads.
All three are read through pointers (`*auth.ResourceType`, `*auth.ResourceId`,
`*auth.Username`), so each may be nil. -/
structure AuthenticationRead where
  ResourceType : Option String
  ResourceId : Option String
  Username : Option String
  deriving DecidableEq, Repr

/-- The Go zero value `AuthenticationRead{}`. -/
def AuthenticationRead.zero : AuthenticationRead := ⟨none, none, none⟩

/-- Authentication of the data model: `{resourceType, resourceId, username}`. -/
structure Authentication where
  resourceType : String
  resourceId : String
  username : String
  deriving DecidableEq, Repr

/-- The upstream record of an authentication of the data model: every field is set. -/
def Authentication.toRead (a : Authentication) : AuthenticationRead :=
  ⟨some a.resourceType, some a.resourceId, some a.username⟩

/-- An authentication is Application-typed when its resource type is `"Application"`. -/
def Authentication.isApplication (a : Authentication) : Bool :=
  a.resourceType == "Application"

/-- Body of the authentication listing: `resp.JSON200.Data` is a pointer to a slice. -/
structure AuthenticationsCollection where
  Data : Option (List AuthenticationRead)
  deriving DecidableEq, Repr

/-- The generated `ApplicationRead`, restricted to `ApplicationTypeId` (a pointer). -/
structure ApplicationRead where
  ApplicationTypeId : Option String
  deriving DecidableEq, Repr

/-- Source type `appType`. -/
structure appType where
  Id : String
  Name : String
  DisplayName : String
  deriving DecidableEq, Repr

/-- Source type `dataElement`. -/
structure dataElement where
  Data : List appType
  deriving DecidableEq, Repr

/-- A `...WithResponse` result of the generated client: status code and the decoded
200 body (`JSON200`, nil when no such body was decoded). -/
structure Response (α : Type) where
  StatusCode : Int
  JSON200 : Option α
  deriving DecidableEq, Repr

/-- Outcome of `json.NewDecoder(resp.Body).Decode(&appTypesData)`. -/
inductive Decoded where
  | failed (err : GoError)
  | value (d : dataElement)
  deriving DecidableEq, Repr

/-- A raw HTTP response as returned by `ListApplicationTypes`: status code and what
decoding its body gives. -/
structure RawResponse where
  StatusCode : Int
  Body : Decoded
  deriving DecidableEq, Repr

/-- Result `(resp, err)` of one call of the generated client. -/
inductive Reply (α : Type) where
  | failed (err : GoError)
  | answered (resp : α)
  deriving DecidableEq, Repr

/-- The upstream service as seen through the generated client. -/
structure Upstream where
  ListSourceAuthentications : String → Reply (Response AuthenticationsCollection)
  ShowApplication : String → Reply (Response ApplicationRead)
  ListApplicationTypes : Reply RawResponse

/-- A request sent upstream. -/
inductive Request where
  | ListSourceAuthentications (sourceId : String)
  | ShowApplication (id : String)
  | ListApplicationTypes
  deriving DecidableEq, Repr

/-- Process state the client touches: the application type cache and the chronological
log of upstream requests. -/
structure ClientState where
  appTypeId : Option String
  requests : List Request
  deriving DecidableEq, Repr

/-- Append a request to the log. -/
def ClientState.record (st : ClientState) (r : Request) : ClientState :=
  { st with requests := st.requests ++ [r] }

/-- Modelled from the spec: package `internal/cache` is not in the source tree.
`get() -> (value, found)` on a cache holding a single string value. -/
def cache.AppTypeId (st : ClientState) : String × Bool :=
  match st.appTypeId with
  | some v => (v, true)
  | none => ("", false)

/-- Modelled from the spec: package `internal/cache` is not in the source tree.
`set(value)` stores the value; the entry is never invalidated. -/
def cache.SetAppTypeId (v : String) (st : ClientState) : ClientState :=
  { st with appTypeId := some v }

/-! ## The sources client -/

/-- The loop of `filterSourceAuthentications`: appends to `list` every element whose
dereferenced `ResourceType` equals `"Application"`. -/
def filterLoop : List AuthenticationRead → List AuthenticationRead →
    Run (List AuthenticationRead)
  | [], list => .ret list
  | auth :: rest, list =>
    match auth.ResourceType with
    | none => .panic .nilDereference
    | some t =>
      if t == "Application" then filterLoop rest (list ++ [auth])
      else filterLoop rest list

/-- Source function `filterSourceAuthentications`. -/
def filterSourceAuthentications (authentications : Option (List AuthenticationRead)) :
    Run (AuthenticationRead × Option GoError) :=
  match authentications with
  | none => .panic .nilDereference
  | some auths =>
    match filterLoop auths [] with
    | .panic p => .panic p
    | .ret list =>
      if list.length > 1 then
        .ret (AuthenticationRead.zero, some (.leaf .MoreThenOneAuthenticationForSourceErr))
      else
        match list[0]? with
        | none => .panic (.indexOutOfRange 0 list.length)
        | some auth => .ret (auth, none)

/-- The scan of `loadAppId` over the decoded application types. -/
def scanAppTypes : List appType → String × Option GoError
  | [] => ("", some (.leaf .ApplicationTypeNotFoundErr))
  | t :: rest =>
    if t.Name == "/insights/platform/provisioning" then (t.Id, none)
    else scanAppTypes rest

/-- Source method `sourcesClient.loadAppId`. -/
def loadAppId (handle : Int → Option GoError) (up : Upstream) (st : ClientState) :
    (String × Option GoError) × ClientState :=
  let st1 := st.record .ListApplicationTypes
  match up.ListApplicationTypes with
  | .failed err => (("", some (.wrap "failed to fetch ApplicationTypes" err)), st1)
  | .answered resp =>
    match handle resp.StatusCode with
    | some err =>
      if errorsIs err .NotFoundErr then
        (("", some (.wrap "load app ID call" (.leaf .ApplicationTypeNotFoundErr))), st1)
      else
        (("", some (.wrap "load app ID call" err)), st1)
    | none =>
      match resp.Body with
      | .failed err =>
        (("", some (.wrap "could not unmarshal application type response" err)), st1)
      | .value appTypesData => (scanAppTypes appTypesData.Data, st1)

/-- Source method `sourcesClient.GetProvisioningTypeId`. -/
def GetProvisioningTypeId (handle : Int → Option GoError) (up : Upstream)
    (st : ClientState) : (String × Option GoError) × ClientState :=
  match cache.AppTypeId st with
  | (appTypeId, true) => ((appTypeId, none), st)
  | (_, false) =>
    match loadAppId handle up st with
    | ((_, some err), st1) => (("", some err), st1)
    | ((appTypeId, none), st1) => ((appTypeId, none), cache.SetAppTypeId appTypeId st1)

/-- Source method `sourcesClient.GetArn`.  The status check after the application
fetch reads `resp.StatusCode()`, the status of the authentication listing, as the
source does. -/
def GetArn (handle : Int → Option GoError) (up : Upstream) (sourceId : String)
    (st : ClientState) : Run (String × Option GoError) × ClientState :=
  let st1 := st.record (.ListSourceAuthentications sourceId)
  match up.ListSourceAuthentications sourceId with
  | .failed err => (.ret ("", some (.wrap "cannot list source authentication" err)), st1)
  | .answered resp =>
    match handle resp.StatusCode with
    | some err =>
      if errorsIs err .NotFoundErr then
        (.ret ("", some (.wrap "get source ARN call"
          (.leaf .AuthenticationForSourcesNotFoundErr))), st1)
      else
        (.ret ("", some (.wrap "get source ARN call" err)), st1)
    | none =>
      match resp.JSON200 with
      | none => (.panic .nilDereference, st1)
      | some body =>
        match filterSourceAuthentications body.Data with
        | .panic p => (.panic p, st1)
        | .ret (_, some err) => (.ret ("", some err), st1)
        | .ret (auth, none) =>
          match auth.ResourceId with
          | none => (.panic .nilDereference, st1)
          | some resourceId =>
            let st2 := st1.record (.ShowApplication resourceId)
            match up.ShowApplication resourceId with
            | .failed err =>
              (.ret ("", some (.wrap "cannot list source authentication" err)), st2)
            | .answered res =>
              match handle resp.StatusCode with
              | some err =>
                if errorsIs err .NotFoundErr then
                  (.ret ("", some (.wrap "get source ARN call"
                    (.leaf .ApplicationNotFoundErr))), st2)
                else
                  (.ret ("", some (.wrap "get source ARN call" err)), st2)
              | none =>
                match GetProvisioningTypeId handle up st2 with
                | ((_, some err), st3) =>
                  (.ret ("", some (.wrap "cannot get provisioning app type" err)), st3)
                | ((appTypeId, none), st3) =>
                  match res.JSON200 with
                  | none => (.panic .nilDereference, st3)
                  | some app =>
                    match app.ApplicationTypeId with
                    | none => (.panic .nilDereference, st3)
                    | some applicationTypeId =>
                      if applicationTypeId != appTypeId then
                        (.ret ("", some (.wrap ("%w for source id " ++ sourceId)
                          (.leaf .AuthenticationSourceAssociationErr))), st3)
                      else
                        match auth.Username with
                        | none => (.panic .nilDereference, st3)
                        | some username => (.ret (username, none), st3)

/-! ## Repeated calls of `GetProvisioningTypeId` -/

/-- One call in a sequence of calls: what it returned, and the process state before
and after it. -/
structure CallRecord where
  result : String × Option GoError
  before : ClientState
  after : ClientState
  deriving DecidableEq, Repr

/-- A sequence of `GetProvisioningTypeId` calls on one process; the `k`-th call sees
the upstream as it answers at that time, `ups[k]`. -/
def callSequence (handle : Int → Option GoError) : List Upstream → ClientState →
    List CallRecord
  | [], _ => []
  | up :: rest, st =>
    let r := GetProvisioningTypeId handle up st
    ⟨r.1, st, r.2⟩ :: callSequence handle rest r.2

/-- The requests a call sent: what it appended to the request log. -/
def CallRecord.sent (r : CallRecord) : List Request :=
  r.after.requests.drop r.before.requests.length

/-- A call is a successful listing call when it returned no error and sent a request
to the application type listing. -/
def CallRecord.successfulListing (r : CallRecord) : Bool :=
  r.result.2.isNone && decide (Request.ListApplicationTypes ∈ r.sent)

/-- Number of successful listing calls in a sequence. -/
def successfulListings (rs : List CallRecord) : Nat :=
  (rs.filter CallRecord.successfulListing).length

/-- The state of a fresh process: empty cache, no request sent. -/
def ClientState.fresh : ClientState := ⟨none, []⟩

/-! ## The reservation handler -/

/-- Provider tag of a reservation; the handler sets `models.ProviderTypeAWS`. -/
inductive ProviderType where
  | ProviderTypeUnknown
  | ProviderTypeAWS
  deriving DecidableEq, Repr

/-- The fields of `models.AWSReservation` the handler reads or writes. -/
structure AWSReservation where
  ID : Int
  AccountID : Int
  Status : String
  Provider : ProviderType
  PubkeyID : Int
  SourceID : Int
  ImageID : String
  Amount : Int
  InstanceType : String
  deriving DecidableEq, Repr

/-- The request payload `payloads.AWSReservationRequest`: the reservation it carries and
the `SourceID` the handler reads from the payload itself. -/
structure AWSReservationRequest where
  AWSReservation : AWSReservation
  SourceID : Int
  deriving DecidableEq, Repr

/-- The fields of a stored public key the handler reads. -/
structure Pubkey where
  ID : Int
  Name : String
  deriving DecidableEq, Repr

/-- Body of the upload job, `jobs.PubkeyUploadAWSTaskArgs`. -/
structure PubkeyUploadAWSTaskArgs where
  AccountID : Int
  ReservationID : Int
  PubkeyID : Int
  ARN : String
  SourceID : Int
  deriving DecidableEq, Repr

/-- Body of the launch job, `jobs.LaunchInstanceAWSTaskArgs`. -/
structure LaunchInstanceAWSTaskArgs where
  AccountID : Int
  ReservationID : Int
  PubkeyID : Int
  AMI : String
  ARN : String
  Amount : Int
  InstanceType : String
  deriving DecidableEq, Repr

/-- Job type tags of package `queue`. -/
inductive JobType where
  | TypePubkeyUploadAws
  | TypeLaunchInstanceAws
  deriving DecidableEq, Repr

/-- Body of a pending job. -/
inductive JobBody where
  | pubkeyUpload (args : PubkeyUploadAWSTaskArgs)
  | launchInstance (args : LaunchInstanceAWSTaskArgs)
  deriving DecidableEq, Repr

/-- A job submitted to the queue, `dejq.PendingJob {Type, Body}`. -/
structure PendingJob where
  JobType : JobType
  Body : JobBody
  deriving DecidableEq, Repr

/-- The error payloads the handler renders, named by their constructors in package
`payloads`; `ClientError` carries the HTTP status the handler passes. -/
inductive ErrorResponse where
  | NewInvalidRequestError (err : GoError)
  | NewInitializeDAOError (what : String) (err : GoError)
  | NewNotFoundError (err : GoError)
  | NewDAOError (what : String) (err : GoError)
  | NewClientInitializationError (what : String) (err : GoError)
  | ClientError (client : String) (message : String) (err : GoError) (status : Nat)
  | NewEnqueueTaskError (what : String) (err : GoError)
  | NewRenderError (what : String) (err : GoError)
  deriving DecidableEq, Repr

/-- Result `(value, err)` of a collaborator that either fails or gives a value. -/
inductive Outcome (α : Type) where
  | failed (err : GoError)
  | ok (v : α)
  deriving DecidableEq, Repr

/-- What the handler does, in order: calls of collaborators and responses written. -/
inductive Event where
  | Bind
  | GetReservationDao
  | GetPubkeyDao
  | GetById (id : Int)
  | CreateAWS (reservation : AWSReservation)
  | GetSourcesClient
  | GetArn (sourceId : String)
  | GetImageBuilderClient
  | GetAWSAmi (imageId : String)
  | Enqueue (jobs : List PendingJob)
  | renderError (resp : ErrorResponse)
  | Render (reservation : AWSReservation)
  | panic (p : PanicKind)
  deriving DecidableEq, Repr

/-- The collaborators of one run of the handler, each given by what it answers.
`CreateAWS` receives the reservation by pointer; on success it answers the record as
persisted (with the id assigned by persistence). `GetAWSAmi` answers `(ami, err)`. -/
structure Collaborators where
  AccountId : Int
  Bind : Outcome AWSReservationRequest
  GetReservationDao : Option GoError
  GetPubkeyDao : Option GoError
  GetById : Int → Outcome Pubkey
  CreateAWS : AWSReservation → Outcome AWSReservation
  GetSourcesClient : Option GoError
  GetArn : String → Run (String × Option GoError)
  GetImageBuilderClient : Option GoError
  GetAWSAmi : String → String × Option GoError
  Enqueue : List PendingJob → Option GoError
  Render : AWSReservation → Option GoError

/-- Go `strconv.Itoa`: the decimal text of an integer. -/
def strconv.Itoa (i : Int) : String := toString i

/-- Modelled from the spec: package `internal/clients/sources`, whose
`ApplicationNotFoundErr` the handler tests, is not in the source tree.  The spec has one
`ApplicationNotFound` error, the one the resolver raises. -/
def sources.ApplicationNotFoundErr : ErrLeaf := .ApplicationNotFoundErr

/-- Modelled from the spec: package `internal/clients/sources`, whose
`AuthenticationForSourcesNotFoundErr` the handler tests, is not in the source tree.  The
spec has one `AuthenticationForSourcesNotFound` error, the one the resolver raises. -/
def sources.AuthenticationForSourcesNotFoundErr : ErrLeaf :=
  .AuthenticationForSourcesNotFoundErr

/-- The tail of `CreateAWSReservation` from the image lookup on (source lines 113 to
143).  After a failed lookup the error is rendered and the code goes on. -/
def finishReservation (c : Collaborators) (accountId : Int) (reservation : AWSReservation)
    (pk : Pubkey) (arn : String) (uploadPubkeyJob : PendingJob) : List Event :=
  let amiResult := c.GetAWSAmi reservation.ImageID
  let ami := amiResult.1
  let launchJob : PendingJob :=
    { JobType := .TypeLaunchInstanceAws
      Body := .launchInstance
        { AccountID := accountId
          ReservationID := reservation.ID
          PubkeyID := pk.ID
          AMI := ami
          ARN := arn
          Amount := reservation.Amount
          InstanceType := reservation.InstanceType } }
  let rest : List Event :=
    .Enqueue [uploadPubkeyJob, launchJob] ::
      match c.Enqueue [uploadPubkeyJob, launchJob] with
      | some err => [.renderError (.NewEnqueueTaskError "AWS reservation" err)]
      | none =>
        .Render reservation ::
          match c.Render reservation with
          | some err => [.renderError (.NewRenderError "reservation" err)]
          | none => []
  .GetAWSAmi reservation.ImageID ::
    match amiResult.2 with
    | some err =>
      .renderError (.ClientError "Image Builder" "can't get ami from image builder" err 500)
        :: rest
    | none => rest

/-- The reservation the handler takes from the payload and fills in (source lines 43
to 46): account id of the caller, status `"Created"`, provider AWS. -/
def createdReservation (accountId : Int) (payload : AWSReservationRequest) :
    AWSReservation :=
  { payload.AWSReservation with
    AccountID := accountId, Status := "Created", Provider := .ProviderTypeAWS }

/-- Source function `CreateAWSReservation`, as the list of its effects. -/
def CreateAWSReservation (c : Collaborators) : List Event :=
  let accountId := c.AccountId
  .Bind ::
  match c.Bind with
  | .failed err => [.renderError (.NewInvalidRequestError err)]
  | .ok payload =>
  .GetReservationDao ::
  match c.GetReservationDao with
  | some err => [.renderError (.NewInitializeDAOError "reservation DAO" err)]
  | none =>
  .GetPubkeyDao ::
  match c.GetPubkeyDao with
  | some err => [.renderError (.NewInitializeDAOError "pubkey DAO" err)]
  | none =>
  let reservation : AWSReservation := createdReservation accountId payload
  .GetById reservation.PubkeyID ::
  match c.GetById reservation.PubkeyID with
  | .failed err =>
    if errorsAsNoRows err then [.renderError (.NewNotFoundError err)]
    else [.renderError (.NewDAOError "get pubkey by id" err)]
  | .ok pk =>
  .CreateAWS reservation ::
  match c.CreateAWS reservation with
  | .failed err => [.renderError (.NewDAOError "create reservation" err)]
  | .ok reservation =>
  .GetSourcesClient ::
  match c.GetSourcesClient with
  | some err => [.renderError (.NewClientInitializationError "sources client v2" err)]
  | none =>
  .GetArn (strconv.Itoa payload.SourceID) ::
  match c.GetArn (strconv.Itoa payload.SourceID) with
  | .panic p => [.panic p]
  | .ret (_, some err) =>
    if errorsIs err sources.ApplicationNotFoundErr then
      [.renderError (.ClientError "Sources"
        "can't fetch arn from sources: application not found" err 404)]
    else if errorsIs err sources.AuthenticationForSourcesNotFoundErr then
      [.renderError (.ClientError "Sources"
        "can't fetch arn from sources: authentication not found" err 404)]
    else
      [.renderError (.ClientError "Sources" "can't fetch arn from sources" err 500)]
  | .ret (arn, none) =>
  let uploadPubkeyJob : PendingJob :=
    { JobType := .TypePubkeyUploadAws
      Body := .pubkeyUpload
        { AccountID := accountId
          ReservationID := reservation.ID
          PubkeyID := pk.ID
          ARN := arn
          SourceID := reservation.SourceID } }
  .GetImageBuilderClient ::
  match c.GetImageBuilderClient with
  | some err => [.renderError (.NewClientInitializationError "image builder client" err)]
  | none => finishReservation c accountId reservation pk arn uploadPubkeyJob

/-- The handler wired to the sources client of this repository: `GetArn` is the
client method, run on the given upstream and process state. -/
def Collaborators.withSourcesClient (c : Collaborators) (handle : Int → Option GoError)
    (up : Upstream) (st : ClientState) : Collaborators :=
  { c with GetArn := fun sourceId => (Provisioning.GetArn handle up sourceId st).1 }

/-- The event is a call of the job queue. -/
def Event.isEnqueue : Event → Bool
  | .Enqueue _ => true
  | _ => false

/-- The event writes a response: an error payload or the reservation. -/
def Event.isResponse : Event → Bool
  | .renderError _ => true
  | .Render _ => true
  | _ => false

/-- The Application-typed authentications of a list, in order. -/
def applicationAuths (l : List Authentication) : List Authentication :=
  l.filter Authentication.isApplication

/-! ## Concrete runs -/

/-- The provisioning application type as the upstream lists it. -/
def provisioningAppType : appType :=
  ⟨"5", "/insights/platform/provisioning", "Provisioning"⟩

/-- An Application-typed authentication of application `"7"`. -/
def authOfApp7 : Authentication :=
  ⟨"Application", "7", "arn:aws:iam::123456789012:role/provisioning"⟩

/-- An Application-typed authentication of application `"8"`. -/
def authOfApp8 : Authentication :=
  ⟨"Application", "8", "arn:aws:iam::123456789012:role/other"⟩

/-- An authentication bound to the source itself, not to an application. -/
def authOfSource : Authentication := ⟨"Source", "42", "user"⟩

/-- An upstream where the source has one Application-typed authentication, the
application fetch answers 404 without a body, and the application types list the
provisioning type with id `"5"`. -/
def upstreamApplicationMissing : Upstream where
  ListSourceAuthentications := fun _ =>
    .answered ⟨200, some ⟨some [authOfSource.toRead, authOfApp7.toRead]⟩⟩
  ShowApplication := fun _ => .answered ⟨404, none⟩
  ListApplicationTypes := .answered ⟨200, .value ⟨[provisioningAppType]⟩⟩

/-- An upstream where the source has two Application-typed authentications. -/
def upstreamTwoAuths : Upstream where
  ListSourceAuthentications := fun _ =>
    .answered ⟨200, some ⟨some [authOfApp7.toRead, authOfApp8.toRead]⟩⟩
  ShowApplication := fun _ => .answered ⟨200, some ⟨some "5"⟩⟩
  ListApplicationTypes := .answered ⟨200, .value ⟨[provisioningAppType]⟩⟩

/-- An upstream where everything is in place: one Application-typed authentication,
its application of the given type id, and the provisioning type listed with id `"5"`. -/
def upstreamHealthy (applicationTypeId : String) : Upstream where
  ListSourceAuthentications := fun _ =>
    .answered ⟨200, some ⟨some [authOfSource.toRead, authOfApp7.toRead]⟩⟩
  ShowApplication := fun _ => .answered ⟨200, some ⟨some applicationTypeId⟩⟩
  ListApplicationTypes := .answered ⟨200, .value ⟨[provisioningAppType]⟩⟩

/-- An upstream whose application type listing answers with the given status and
an empty list. -/
def upstreamListingStatus (status : Int) : Upstream where
  ListSourceAuthentications := fun _ => .answered ⟨404, none⟩
  ShowApplication := fun _ => .answered ⟨404, none⟩
  ListApplicationTypes := .answered ⟨status, .value ⟨[]⟩⟩

/-- A reservation request for source 42 with pubkey 99. -/
def sampleRequest : AWSReservationRequest where
  AWSReservation :=
    { ID := 0, AccountID := 0, Status := "", Provider := .ProviderTypeUnknown,
      PubkeyID := 99, SourceID := 42, ImageID := "image-1", Amount := 2,
      InstanceType := "t3.small" }
  SourceID := 42

/-- Collaborators of a run where every step succeeds: persistence assigns id 1000,
the ARN is resolved, the image catalog answers `"ami-0123"`. -/
def healthyRun : Collaborators where
  AccountId := 7
  Bind := .ok sampleRequest
  GetReservationDao := none
  GetPubkeyDao := none
  GetById := fun id => .ok ⟨id, "key"⟩
  CreateAWS := fun r => .ok { r with ID := 1000 }
  GetSourcesClient := none
  GetArn := fun _ => .ret ("arn:aws:iam::123456789012:role/provisioning", none)
  GetImageBuilderClient := none
  GetAWSAmi := fun _ => ("ami-0123", none)
  Enqueue := fun _ => none
  Render := fun _ => none

/-- The healthy run, except that pubkey 99 does not exist. -/
def runPubkeyMissing : Collaborators :=
  { healthyRun with GetById := fun _ => .failed (.leaf (.NoRowsError "no rows")) }

/-- The healthy run, except that the image lookup fails. -/
def runImageLookupFails : Collaborators :=
  { healthyRun with GetAWSAmi := fun _ => ("", some (.leaf (.other "image not found"))) }

/-- The healthy run, except that `GetArn` fails with the given error. -/
def runArnFails (err : GoError) : Collaborators :=
  { healthyRun with GetArn := fun _ => .ret ("", some err) }

/-- The reservation of the sample request as persisted in the healthy run. -/
def storedSample : AWSReservation :=
  { ID := 1000, AccountID := 7, Status := "Created", Provider := .ProviderTypeAWS,
    PubkeyID := 99, SourceID := 42, ImageID := "image-1", Amount := 2,
    InstanceType := "t3.small" }

/-! ## Lemmas on the sources client -/

theorem filterLoop_toRead (l : List Authentication) (acc : List AuthenticationRead) :
    filterLoop (l.map Authentication.toRead) acc
      = .ret (acc ++ (applicationAuths l).map Authentication.toRead) := by
  induction l generalizing acc with
  | nil => simp [filterLoop, applicationAuths]
  | cons a rest ih =>
    by_cases h : a.resourceType = "Application"
    · simp [filterLoop, Authentication.toRead, applicationAuths,
        Authentication.isApplication, h] at ih ⊢
      simp [ih]
    · simp [filterLoop, Authentication.toRead, applicationAuths,
        Authentication.isApplication, h] at ih ⊢
      simp [ih]

theorem filterSourceAuthentications_toRead (l : List Authentication) :
    filterSourceAuthentications (some (l.map Authentication.toRead))
      = match applicationAuths l with
        | [] => .panic (.indexOutOfRange 0 0)
        | [a] => .ret (a.toRead, none)
        | _ :: _ :: _ =>
          .ret (AuthenticationRead.zero, some (.leaf .MoreThenOneAuthenticationForSourceErr)) := by
  simp only [filterSourceAuthentications, filterLoop_toRead, List.nil_append]
  rcases h : applicationAuths l with _ | ⟨a, _ | ⟨b, t⟩⟩ <;> simp

theorem scanAppTypes_eq_find (l : List appType) :
    scanAppTypes l
      = match l.find? (fun t => t.Name == "/insights/platform/provisioning") with
        | some t => (t.Id, none)
        | none => ("", some (.leaf .ApplicationTypeNotFoundErr)) := by
  induction l with
  | nil => simp [scanAppTypes]
  | cons t rest ih =>
    by_cases h : t.Name = "/insights/platform/provisioning"
    · simp [scanAppTypes, h]
    · simp [scanAppTypes, h, ih]

theorem GetProvisioningTypeId_cached (handle : Int → Option GoError) (up : Upstream)
    (st : ClientState) (v : String) (h : st.appTypeId = some v) :
    GetProvisioningTypeId handle up st = ((v, none), st) := by
  simp [GetProvisioningTypeId, cache.AppTypeId, h]

/-! ## Claims on the sources client -/

/-- C2: for every list of authentications with two or more Application-typed elements,
`filterSourceAuthentications` returns `MoreThenOneAuthenticationForSourceErr` with an
empty authentication, and `GetArn` on a source whose listing succeeds with such a list
returns that error having sent only the listing request (no application is fetched);
for every list with exactly one Application-typed element, `filterSourceAuthentications`
returns that element and no error. -/
theorem filterSourceAuthentications_more_than_one (l : List Authentication) :
    (2 ≤ (applicationAuths l).length →
      filterSourceAuthentications (some (l.map Authentication.toRead))
        = .ret (AuthenticationRead.zero,
            some (.leaf .MoreThenOneAuthenticationForSourceErr))) ∧
    (2 ≤ (applicationAuths l).length →
      ∀ (handle : Int → Option GoError) (up : Upstream) (sourceId : String)
        (st : ClientState) (status : Int),
        up.ListSourceAuthentications sourceId
          = .answered ⟨status, some ⟨some (l.map Authentication.toRead)⟩⟩ →
        handle status = none →
        GetArn handle up sourceId st
          = (.ret ("", some (.leaf .MoreThenOneAuthenticationForSourceErr)),
             ⟨st.appTypeId, st.requests ++ [.ListSourceAuthentications sourceId]⟩)) ∧
    (∀ a, applicationAuths l = [a] →
      filterSourceAuthentications (some (l.map Authentication.toRead))
        = .ret (a.toRead, none)) := by
  have key := filterSourceAuthentications_toRead l
  refine ⟨?_, ?_, ?_⟩
  · intro h
    rcases hl : applicationAuths l with _ | ⟨a, _ | ⟨b, t⟩⟩
    · simp [hl] at h
    · simp [hl] at h
    · simpa [hl] using key
  · intro h handle up sourceId st status hlist hstatus
    rcases hl : applicationAuths l with _ | ⟨a, _ | ⟨b, t⟩⟩
    · simp [hl] at h
    · simp [hl] at h
    · rw [hl] at key
      simp [GetArn, hlist, hstatus, key, ClientState.record]
  · intro a hl
    simpa [hl] using key

/-- C9: for every list of authentications (the empty one included) with no
Application-typed element, `filterSourceAuthentications` returns no value and no error:
it faults reading element 0 of the empty filtered list; with at least one
Application-typed element it returns (the read, when made, is in range). -/
theorem filterSourceAuthentications_first_element (l : List Authentication) :
    ((applicationAuths l).length = 0 →
      filterSourceAuthentications (some (l.map Authentication.toRead))
        = .panic (.indexOutOfRange 0 0)) ∧
    (1 ≤ (applicationAuths l).length →
      ∃ v, filterSourceAuthentications (some (l.map Authentication.toRead)) = .ret v) := by
  have key := filterSourceAuthentications_toRead l
  rcases hl : applicationAuths l with _ | ⟨a, _ | ⟨b, t⟩⟩
  · simp [hl] at key
    simp [key]
  · simp [hl] at key
    simp [key]
  · simp [hl] at key
    simp [key]

/-- C10: when the application type listing is fetched with a status the handler accepts
and its body decodes, `loadAppId` returns the id of the first entry named
`/insights/platform/provisioning`, and returns `ApplicationTypeNotFoundErr` exactly when
no entry has that name; a status the handler reports as not found gives (wrapped)
`ApplicationTypeNotFoundErr`, any other status error is passed on wrapped; with the
status handler of the spec these are status 404 and the upstream error carrying the
status code. -/
theorem loadAppId_result (handle : Int → Option GoError) (up : Upstream)
    (st : ClientState) (resp : RawResponse)
    (hresp : up.ListApplicationTypes = .answered resp) :
    (∀ d, handle resp.StatusCode = none → resp.Body = .value d →
      (loadAppId handle up st).1
        = (match d.Data.find? (fun t => t.Name == "/insights/platform/provisioning") with
           | some t => (t.Id, none)
           | none => ("", some (.leaf .ApplicationTypeNotFoundErr))) ∧
      ((loadAppId handle up st).1.2 = some (.leaf .ApplicationTypeNotFoundErr)
        ↔ ∀ t ∈ d.Data, t.Name ≠ "/insights/platform/provisioning")) ∧
    (∀ e, handle resp.StatusCode = some e → errorsIs e .NotFoundErr = true →
      (loadAppId handle up st).1
        = ("", some (.wrap "load app ID call" (.leaf .ApplicationTypeNotFoundErr)))) ∧
    (∀ e, handle resp.StatusCode = some e → errorsIs e .NotFoundErr = false →
      (loadAppId handle up st).1 = ("", some (.wrap "load app ID call" e))) ∧
    (resp.StatusCode = 404 →
      (loadAppId http.HandleHTTPResponses up st).1
        = ("", some (.wrap "load app ID call" (.leaf .ApplicationTypeNotFoundErr)))) ∧
    (resp.StatusCode ≠ 404 → ¬ (200 ≤ resp.StatusCode ∧ resp.StatusCode < 300) →
      (loadAppId http.HandleHTTPResponses up st).1
        = ("", some (.wrap "load app ID call"
            (.leaf (.upstreamStatus resp.StatusCode))))) := by
  refine ⟨?_, ?_, ?_, ?_, ?_⟩
  · intro d hs hb
    have hload : (loadAppId handle up st).1 = scanAppTypes d.Data := by
      simp [loadAppId, hresp, hs, hb]
    rw [hload, scanAppTypes_eq_find]
    refine ⟨rfl, ?_⟩
    cases hf : d.Data.find? (fun t => t.Name == "/insights/platform/provisioning") with
    | none =>
      simp only [true_iff]
      intro t ht hname
      have := List.find?_eq_none.mp hf t ht
      simp [hname] at this
    | some t =>
      simp only [reduceCtorEq, false_iff]
      intro hall
      have hmem := List.mem_of_find?_eq_some hf
      have hp := List.find?_some hf
      exact hall t hmem (by simpa using hp)
  · intro e hs hnf
    simp [loadAppId, hresp, hs, hnf]
  · intro e hs hnf
    simp [loadAppId, hresp, hs, hnf]
  · intro h404
    simp [loadAppId, hresp, http.HandleHTTPResponses, h404, errorsIs]
  · intro h404 hnot
    simp [loadAppId, hresp, http.HandleHTTPResponses, h404, hnot, errorsIs]

/-- C3: in every run of `GetArn` where the authentication listing succeeds with exactly
one Application-typed authentication, the application is fetched and decoded, and the
provisioning type id is resolved, `GetArn` fails with
`AuthenticationSourceAssociationErr` if and only if the application's type id differs
from the provisioning type id; when they are equal it returns that authentication's
username and no error. -/
theorem GetArn_association (handle : Int → Option GoError) (up : Upstream)
    (sourceId : String) (st st3 : ClientState) (status appStatus : Int)
    (l : List Authentication) (a : Authentication)
    (applicationTypeId appTypeId : String)
    (hlist : up.ListSourceAuthentications sourceId
      = .answered ⟨status, some ⟨some (l.map Authentication.toRead)⟩⟩)
    (hstatus : handle status = none)
    (hone : applicationAuths l = [a])
    (happ : up.ShowApplication a.resourceId
      = .answered ⟨appStatus, some ⟨some applicationTypeId⟩⟩)
    (htype : GetProvisioningTypeId handle up
      ((st.record (.ListSourceAuthentications sourceId)).record
        (.ShowApplication a.resourceId)) = ((appTypeId, none), st3)) :
    (applicationTypeId ≠ appTypeId →
      (GetArn handle up sourceId st).1
        = .ret ("", some (.wrap ("%w for source id " ++ sourceId)
            (.leaf .AuthenticationSourceAssociationErr)))) ∧
    (applicationTypeId = appTypeId →
      (GetArn handle up sourceId st).1 = .ret (a.username, none)) ∧
    ((∃ v e, (GetArn handle up sourceId st).1 = .ret (v, some e) ∧
        errorsIs e .AuthenticationSourceAssociationErr = true)
      ↔ applicationTypeId ≠ appTypeId) := by
  have hfilter := filterSourceAuthentications_toRead l
  rw [hone] at hfilter
  by_cases heq : applicationTypeId = appTypeId
  · have hres : (GetArn handle up sourceId st).1 = .ret (a.username, none) := by
      simp [GetArn, hlist, hstatus, hfilter, Authentication.toRead, happ, htype, heq]
    refine ⟨fun h => absurd heq h, fun _ => hres, ?_⟩
    constructor
    · rintro ⟨v, e, hv, -⟩
      rw [hres] at hv
      simp at hv
    · intro h
      exact absurd heq h
  · have hres : (GetArn handle up sourceId st).1
        = .ret ("", some (.wrap ("%w for source id " ++ sourceId)
            (.leaf .AuthenticationSourceAssociationErr))) := by
      simp [GetArn, hlist, hstatus, hfilter, Authentication.toRead, happ, htype, heq]
    refine ⟨fun _ => hres, fun h => absurd h heq, ?_⟩
    constructor
    · intro _
      exact heq
    · intro _
      exact ⟨"", _, hres, by simp [errorsIs]⟩

theorem GetProvisioningTypeId_uncached (handle : Int → Option GoError) (up : Upstream)
    (st : ClientState) (h : st.appTypeId = none) :
    (∃ v e, GetProvisioningTypeId handle up st
        = ((v, some e), ⟨none, st.requests ++ [.ListApplicationTypes]⟩)) ∨
    (∃ v, GetProvisioningTypeId handle up st
        = ((v, none), ⟨some v, st.requests ++ [.ListApplicationTypes]⟩)) := by
  obtain ⟨c, rs⟩ := st
  simp only at h
  subst h
  have hst : (loadAppId handle up ⟨none, rs⟩).2 = ⟨none, rs ++ [.ListApplicationTypes]⟩ := by
    simp only [loadAppId, ClientState.record]
    split
    · rfl
    · split
      · split <;> rfl
      · split <;> rfl
  rcases hl : loadAppId handle up ⟨none, rs⟩ with ⟨⟨v, e⟩, st1⟩
  rw [hl] at hst
  simp only at hst
  subst hst
  cases e with
  | some e =>
    left
    exact ⟨"", e, by simp [GetProvisioningTypeId, cache.AppTypeId, hl]⟩
  | none =>
    right
    exact ⟨v, by simp [GetProvisioningTypeId, cache.AppTypeId, hl, cache.SetAppTypeId]⟩

theorem callSequence_cached (handle : Int → Option GoError) (ups : List Upstream)
    (st : ClientState) (v : String) (h : st.appTypeId = some v) :
    callSequence handle ups st = ups.map (fun _ => ⟨(v, none), st, st⟩) := by
  induction ups with
  | nil => rfl
  | cons up rest ih =>
    simp [callSequence, GetProvisioningTypeId_cached handle up st v h, ih]

theorem successfulListings_cached (ups : List Upstream) (st : ClientState) (v : String) :
    successfulListings (ups.map (fun _ => (⟨(v, none), st, st⟩ : CallRecord))) = 0 := by
  induction ups with
  | nil => rfl
  | cons up rest ih =>
    simp only [successfulListings, List.map_cons] at ih ⊢
    rw [List.filter_cons_of_neg]
    · exact ih
    · simp [CallRecord.successfulListing, CallRecord.sent]

theorem callSequence_length (handle : Int → Option GoError) (ups : List Upstream)
    (st : ClientState) : (callSequence handle ups st).length = ups.length := by
  induction ups generalizing st with
  | nil => rfl
  | cons up rest ih => simp [callSequence, ih]

theorem callSequence_uncached (handle : Int → Option GoError) (ups : List Upstream)
    (st : ClientState) (hst : st.appTypeId = none) (i : Nat) (r : CallRecord) (v : String)
    (hi : (callSequence handle ups st)[i]? = some r) (hr : r.result = (v, none)) :
    (∀ j r2, i < j → (callSequence handle ups st)[j]? = some r2 →
      r2.result = (v, none) ∧ r2.after = r2.before ∧ r2.sent = []) ∧
    successfulListings (callSequence handle ups st) = 1 := by
  induction ups generalizing st i with
  | nil => simp [callSequence] at hi
  | cons up rest ih =>
    rcases GetProvisioningTypeId_uncached handle up st hst with ⟨w, e, hg⟩ | ⟨w, hg⟩
    · -- this call fails: the cache stays empty
      have hseq : callSequence handle (up :: rest) st
          = ⟨(w, some e), st, ⟨none, st.requests ++ [.ListApplicationTypes]⟩⟩
            :: callSequence handle rest ⟨none, st.requests ++ [.ListApplicationTypes]⟩ := by
        simp [callSequence, hg]
      rw [hseq] at hi ⊢
      cases i with
      | zero =>
        simp at hi
        subst hi
        simp at hr
      | succ i =>
        simp only [List.getElem?_cons_succ] at hi
        obtain ⟨h1, h2⟩ := ih ⟨none, st.requests ++ [.ListApplicationTypes]⟩ rfl i hi
        refine ⟨?_, ?_⟩
        · intro j r2 hj hj2
          cases j with
          | zero => omega
          | succ j =>
            simp only [List.getElem?_cons_succ] at hj2
            exact h1 j r2 (by omega) hj2
        · simp only [successfulListings] at h2 ⊢
          rw [List.filter_cons_of_neg]
          · exact h2
          · simp [CallRecord.successfulListing]
    · -- this call succeeds: every later call is answered from the cache
      have hseq : callSequence handle (up :: rest) st
          = ⟨(w, none), st, ⟨some w, st.requests ++ [.ListApplicationTypes]⟩⟩
            :: rest.map (fun _ => ⟨(w, none),
                ⟨some w, st.requests ++ [.ListApplicationTypes]⟩,
                ⟨some w, st.requests ++ [.ListApplicationTypes]⟩⟩) := by
        show (⟨(GetProvisioningTypeId handle up st).1, st,
            (GetProvisioningTypeId handle up st).2⟩
          :: callSequence handle rest (GetProvisioningTypeId handle up st).2) = _
        rw [hg]
        simp only
        rw [callSequence_cached handle rest
          (⟨some w, st.requests ++ [Request.ListApplicationTypes]⟩ : ClientState) w rfl]
      rw [hseq] at hi ⊢
      have hv : v = w := by
        cases i with
        | zero =>
          simp at hi
          subst hi
          simp at hr
          exact hr.symm
        | succ i =>
          simp only [List.getElem?_cons_succ, List.getElem?_map] at hi
          cases hrest : rest[i]? with
          | none => simp [hrest] at hi
          | some u =>
            simp [hrest] at hi
            subst hi
            simp at hr
            exact hr.symm
      subst hv
      refine ⟨?_, ?_⟩
      · intro j r2 hj hj2
        cases j with
        | zero => omega
        | succ j =>
          simp only [List.getElem?_cons_succ, List.getElem?_map] at hj2
          cases hrest : rest[j]? with
          | none => simp [hrest] at hj2
          | some u =>
            simp [hrest] at hj2
            subst hj2
            simp [CallRecord.sent]
      · simp only [successfulListings]
        rw [List.filter_cons_of_pos]
        · have := successfulListings_cached rest
            ⟨some v, st.requests ++ [.ListApplicationTypes]⟩ v
          simp only [successfulListings] at this
          rw [List.length_cons, this]
        · simp [CallRecord.successfulListing, CallRecord.sent]

/-- C4: in every sequence of `GetProvisioningTypeId` calls on a process that starts
with an empty cache, whatever the upstream answers at each call, once a call has
returned `v` without error every later call returns `v` without error and sends no
request, and exactly one call of the whole sequence is a successful listing call. -/
theorem GetProvisioningTypeId_idempotent (handle : Int → Option GoError)
    (ups : List Upstream) (i : Nat) (r : CallRecord) (v : String)
    (hi : (callSequence handle ups ClientState.fresh)[i]? = some r)
    (hr : r.result = (v, none)) :
    (∀ j, i < j → j < ups.length →
      ∃ r2, (callSequence handle ups ClientState.fresh)[j]? = some r2 ∧
        r2.result = (v, none) ∧ r2.after = r2.before ∧ r2.sent = []) ∧
    successfulListings (callSequence handle ups ClientState.fresh) = 1 := by
  obtain ⟨h1, h2⟩ := callSequence_uncached handle ups ClientState.fresh rfl i r v hi hr
  refine ⟨?_, h2⟩
  intro j hij hj
  have hlen : j < (callSequence handle ups ClientState.fresh).length := by
    rw [callSequence_length]; exact hj
  refine ⟨(callSequence handle ups ClientState.fresh)[j], ?_, ?_⟩
  · exact List.getElem?_eq_getElem hlen
  · exact h1 j _ hij (List.getElem?_eq_getElem hlen)

/-- C1 (the code departs from it): on a source with exactly one Application-typed
authentication whose application fetch answers 404, a status the handler maps to the
not-found error, `GetArn` returns no error wrapping `ApplicationNotFoundErr`: the status
it checks after the fetch is the one of the listing (200), so it goes on, resolves the
provisioning type and faults reading the missing application body. -/
theorem GetArn_application_status_unchecked :
    applicationAuths [authOfSource, authOfApp7] = [authOfApp7] ∧
    http.HandleHTTPResponses 404 = some (.leaf .NotFoundErr) ∧
    GetArn http.HandleHTTPResponses upstreamApplicationMissing "42" ClientState.fresh
      = (.panic .nilDereference,
         ⟨some "5", [.ListSourceAuthentications "42", .ShowApplication "7",
            .ListApplicationTypes]⟩) := by
  refine ⟨by decide, by decide, ?_⟩
  decide

/-! ## Claims on the reservation handler -/

/-- C5: for every valid request whose pubkey lookup fails, the handler stops right
after the lookup: it creates no reservation and calls neither the sources client, the
image catalog nor the job queue; it renders a not-found response when the failure is a
no-rows error and a DAO error response otherwise. -/
theorem CreateAWSReservation_pubkey_lookup_fails (c : Collaborators)
    (payload : AWSReservationRequest) (err : GoError)
    (hbind : c.Bind = .ok payload)
    (hrdao : c.GetReservationDao = none)
    (hpdao : c.GetPubkeyDao = none)
    (hpk : c.GetById payload.AWSReservation.PubkeyID = .failed err) :
    CreateAWSReservation c
      = [.Bind, .GetReservationDao, .GetPubkeyDao,
         .GetById payload.AWSReservation.PubkeyID,
         .renderError (if errorsAsNoRows err then .NewNotFoundError err
                       else .NewDAOError "get pubkey by id" err)] ∧
    (∀ ev ∈ CreateAWSReservation c,
      ev.isEnqueue = false ∧ (∀ r, ev ≠ .CreateAWS r) ∧ (∀ sid, ev ≠ .GetArn sid) ∧
      ev ≠ .GetSourcesClient ∧ ev ≠ .GetImageBuilderClient ∧
      (∀ img, ev ≠ .GetAWSAmi img)) := by
  have htrace : CreateAWSReservation c
      = [.Bind, .GetReservationDao, .GetPubkeyDao,
         .GetById payload.AWSReservation.PubkeyID,
         .renderError (if errorsAsNoRows err then .NewNotFoundError err
                       else .NewDAOError "get pubkey by id" err)] := by
    by_cases hno : errorsAsNoRows err = true
    · simp [CreateAWSReservation, createdReservation, hbind, hrdao, hpdao, hpk, hno]
    · simp [CreateAWSReservation, createdReservation, hbind, hrdao, hpdao, hpk, hno]
  refine ⟨htrace, ?_⟩
  intro ev hev
  rw [htrace] at hev
  simp only [List.mem_cons, List.mem_singleton, List.not_mem_nil, or_false] at hev
  rcases hev with h | h | h | h | h <;> subst h <;> simp [Event.isEnqueue]

/-- C6: in every run where validation, pubkey lookup, reservation creation, credential
resolution and image lookup all succeed, the job queue is called exactly once, with the
two jobs `[upload pubkey, launch instance]` in this order; the upload job carries the
account id, the id of the persisted reservation, the pubkey id, the resolved ARN and
the source id, the launch job carries the account id, reservation id, pubkey id, the
AMI the image lookup returned, the same ARN, the amount and the instance type. -/
theorem CreateAWSReservation_enqueues_two_jobs (c : Collaborators)
    (payload : AWSReservationRequest) (pk : Pubkey) (stored : AWSReservation)
    (arn ami : String)
    (hbind : c.Bind = .ok payload)
    (hrdao : c.GetReservationDao = none)
    (hpdao : c.GetPubkeyDao = none)
    (hpk : c.GetById payload.AWSReservation.PubkeyID = .ok pk)
    (hcreate : c.CreateAWS (createdReservation c.AccountId payload) = .ok stored)
    (hclient : c.GetSourcesClient = none)
    (harn : c.GetArn (strconv.Itoa payload.SourceID) = .ret (arn, none))
    (hib : c.GetImageBuilderClient = none)
    (hami : c.GetAWSAmi stored.ImageID = (ami, none)) :
    (CreateAWSReservation c).filter Event.isEnqueue
      = [.Enqueue
          [ { JobType := .TypePubkeyUploadAws
              Body := .pubkeyUpload
                { AccountID := c.AccountId, ReservationID := stored.ID, PubkeyID := pk.ID,
                  ARN := arn, SourceID := stored.SourceID } },
            { JobType := .TypeLaunchInstanceAws
              Body := .launchInstance
                { AccountID := c.AccountId, ReservationID := stored.ID, PubkeyID := pk.ID,
                  AMI := ami, ARN := arn, Amount := stored.Amount,
                  InstanceType := stored.InstanceType } } ]] := by
  have hpk2 : c.GetById (createdReservation c.AccountId payload).PubkeyID = .ok pk := by
    simpa [createdReservation] using hpk
  simp only [CreateAWSReservation, finishReservation, hbind, hrdao, hpdao, hpk2, hcreate,
    hclient, harn, hib, hami]
  cases c.Enqueue _ with
  | some e => simp [Event.isEnqueue]
  | none =>
    cases c.Render stored with
    | some e => simp [Event.isEnqueue]
    | none => simp [Event.isEnqueue]

/-- C7 (the code departs from it): in the run where the image lookup fails, the handler
renders the image builder error and still calls the job queue with both jobs (the launch
job with an empty AMI) and then renders the reservation: the queue is invoked after the
failed lookup and two responses are written in one run. -/
theorem CreateAWSReservation_continues_after_image_failure :
    CreateAWSReservation runImageLookupFails
      = [.Bind, .GetReservationDao, .GetPubkeyDao, .GetById 99,
         .CreateAWS { storedSample with ID := 0 },
         .GetSourcesClient, .GetArn "42", .GetImageBuilderClient, .GetAWSAmi "image-1",
         .renderError (.ClientError "Image Builder" "can't get ami from image builder"
            (.leaf (.other "image not found")) 500),
         .Enqueue
          [ { JobType := .TypePubkeyUploadAws
              Body := .pubkeyUpload
                { AccountID := 7, ReservationID := 1000, PubkeyID := 99,
                  ARN := "arn:aws:iam::123456789012:role/provisioning", SourceID := 42 } },
            { JobType := .TypeLaunchInstanceAws
              Body := .launchInstance
                { AccountID := 7, ReservationID := 1000, PubkeyID := 99, AMI := "",
                  ARN := "arn:aws:iam::123456789012:role/provisioning", Amount := 2,
                  InstanceType := "t3.small" } } ],
         .Render storedSample] ∧
    ((CreateAWSReservation runImageLookupFails).filter Event.isResponse).length = 2 := by
  constructor <;> decide

/-- C8: in every run that reaches credential resolution, when `GetArn` fails the handler
renders a Sources client error and stops, with no job built or enqueued; the status is
404 when the error wraps `ApplicationNotFoundErr` or
`AuthenticationForSourcesNotFoundErr` and 500 for every other error.  With the sources
client of this repository, a listing answered with a not-found status gives such a 404
response. -/
theorem CreateAWSReservation_arn_failure_status (c : Collaborators)
    (payload : AWSReservationRequest) (pk : Pubkey) (stored : AWSReservation)
    (hbind : c.Bind = .ok payload)
    (hrdao : c.GetReservationDao = none)
    (hpdao : c.GetPubkeyDao = none)
    (hpk : c.GetById payload.AWSReservation.PubkeyID = .ok pk)
    (hcreate : c.CreateAWS (createdReservation c.AccountId payload) = .ok stored)
    (hclient : c.GetSourcesClient = none) :
    (∀ v err, c.GetArn (strconv.Itoa payload.SourceID) = .ret (v, some err) →
      ∃ message,
        CreateAWSReservation c
          = [.Bind, .GetReservationDao, .GetPubkeyDao,
             .GetById payload.AWSReservation.PubkeyID,
             .CreateAWS (createdReservation c.AccountId payload),
             .GetSourcesClient, .GetArn (strconv.Itoa payload.SourceID),
             .renderError (.ClientError "Sources" message err
                (if errorsIs err .ApplicationNotFoundErr = true ∨
                    errorsIs err .AuthenticationForSourcesNotFoundErr = true
                 then 404 else 500))]) ∧
    (∀ (handle : Int → Option GoError) (up : Upstream) (st : ClientState) (status : Int)
        (body : Option AuthenticationsCollection) (e : GoError),
      up.ListSourceAuthentications (strconv.Itoa payload.SourceID)
        = .answered ⟨status, body⟩ →
      handle status = some e → errorsIs e .NotFoundErr = true →
      CreateAWSReservation (c.withSourcesClient handle up st)
        = [.Bind, .GetReservationDao, .GetPubkeyDao,
           .GetById payload.AWSReservation.PubkeyID,
           .CreateAWS (createdReservation c.AccountId payload),
           .GetSourcesClient, .GetArn (strconv.Itoa payload.SourceID),
           .renderError (.ClientError "Sources"
              "can't fetch arn from sources: authentication not found"
              (.wrap "get source ARN call" (.leaf .AuthenticationForSourcesNotFoundErr))
              404)]) := by
  have hpk2 : c.GetById (createdReservation c.AccountId payload).PubkeyID = .ok pk := by
    simpa [createdReservation] using hpk
  have hpkid : (createdReservation c.AccountId payload).PubkeyID
      = payload.AWSReservation.PubkeyID := rfl
  constructor
  · intro v err harn
    by_cases h1 : errorsIs err .ApplicationNotFoundErr = true
    · refine ⟨"can't fetch arn from sources: application not found", ?_⟩
      simp [CreateAWSReservation, hbind, hrdao, hpdao, hpk, hpk2, hcreate, hclient, harn, h1,
        sources.ApplicationNotFoundErr, hpkid]
    · by_cases h2 : errorsIs err .AuthenticationForSourcesNotFoundErr = true
      · refine ⟨"can't fetch arn from sources: authentication not found", ?_⟩
        simp [CreateAWSReservation, hbind, hrdao, hpdao, hpk, hpk2, hcreate, hclient, harn, h1,
          h2, sources.ApplicationNotFoundErr, sources.AuthenticationForSourcesNotFoundErr,
          hpkid]
      · refine ⟨"can't fetch arn from sources", ?_⟩
        simp [CreateAWSReservation, hbind, hrdao, hpdao, hpk, hpk2, hcreate, hclient, harn, h1,
          h2, sources.ApplicationNotFoundErr, sources.AuthenticationForSourcesNotFoundErr,
          hpkid]
  · intro handle up st status body e hlist hstatus hnf
    have harn : (GetArn handle up (strconv.Itoa payload.SourceID) st).1
        = .ret ("", some (.wrap "get source ARN call"
            (.leaf .AuthenticationForSourcesNotFoundErr))) := by
      simp [GetArn, hlist, hstatus, hnf]
    simp [CreateAWSReservation, Collaborators.withSourcesClient, hbind, hrdao, hpdao, hpk, hpk2,
      hcreate, hclient, harn, sources.ApplicationNotFoundErr,
      sources.AuthenticationForSourcesNotFoundErr, errorsIs, hpkid]

/-! ## The claims at concrete inputs -/

/-- C2 at concrete inputs: two Application-typed authentications give the error, also
through `GetArn` (only the listing request is sent); one gives that authentication. -/
theorem filterSourceAuthentications_more_than_one_witness :
    filterSourceAuthentications
        (some ([authOfApp7, authOfApp8].map Authentication.toRead))
      = .ret (AuthenticationRead.zero,
          some (.leaf .MoreThenOneAuthenticationForSourceErr)) ∧
    GetArn http.HandleHTTPResponses upstreamTwoAuths "42" ClientState.fresh
      = (.ret ("", some (.leaf .MoreThenOneAuthenticationForSourceErr)),
         ⟨none, [.ListSourceAuthentications "42"]⟩) ∧
    filterSourceAuthentications
        (some ([authOfSource, authOfApp7].map Authentication.toRead))
      = .ret (authOfApp7.toRead, none) :=
  ⟨(filterSourceAuthentications_more_than_one [authOfApp7, authOfApp8]).1 (by decide),
   (filterSourceAuthentications_more_than_one [authOfApp7, authOfApp8]).2.1 (by decide)
      http.HandleHTTPResponses upstreamTwoAuths "42" ClientState.fresh 200 rfl (by decide),
   (filterSourceAuthentications_more_than_one [authOfSource, authOfApp7]).2.2
      authOfApp7 (by decide)⟩

/-- C9 at concrete inputs: the empty list and a list without an Application-typed
element fault at index 0 of an empty list; a list with one such element returns. -/
theorem filterSourceAuthentications_first_element_witness :
    filterSourceAuthentications (some (([] : List Authentication).map Authentication.toRead))
      = .panic (.indexOutOfRange 0 0) ∧
    filterSourceAuthentications (some ([authOfSource].map Authentication.toRead))
      = .panic (.indexOutOfRange 0 0) ∧
    (∃ v, filterSourceAuthentications
        (some ([authOfSource, authOfApp7].map Authentication.toRead)) = .ret v) :=
  ⟨(filterSourceAuthentications_first_element []).1 (by decide),
   (filterSourceAuthentications_first_element [authOfSource]).1 (by decide),
   (filterSourceAuthentications_first_element [authOfSource, authOfApp7]).2 (by decide)⟩

/-- C10 at concrete inputs: the listed provisioning type gives id `"5"`; a 404 listing
gives the wrapped `ApplicationTypeNotFoundErr`; a 500 listing gives the wrapped upstream
error carrying 500. -/
theorem loadAppId_result_witness :
    (loadAppId http.HandleHTTPResponses (upstreamHealthy "5") ClientState.fresh).1
      = ("5", none) ∧
    (loadAppId http.HandleHTTPResponses (upstreamListingStatus 404) ClientState.fresh).1
      = ("", some (.wrap "load app ID call" (.leaf .ApplicationTypeNotFoundErr))) ∧
    (loadAppId http.HandleHTTPResponses (upstreamListingStatus 500) ClientState.fresh).1
      = ("", some (.wrap "load app ID call" (.leaf (.upstreamStatus 500)))) ∧
    (loadAppId http.HandleHTTPResponses (upstreamListingStatus 404) ClientState.fresh).1
      = ("", some (.wrap "load app ID call" (.leaf .ApplicationTypeNotFoundErr))) ∧
    (loadAppId http.HandleHTTPResponses (upstreamListingStatus 500) ClientState.fresh).1
      = ("", some (.wrap "load app ID call" (.leaf (.upstreamStatus 500)))) :=
  ⟨((loadAppId_result http.HandleHTTPResponses (upstreamHealthy "5") ClientState.fresh
        ⟨200, .value ⟨[provisioningAppType]⟩⟩ rfl).1
        ⟨[provisioningAppType]⟩ (by decide) rfl).1,
   (loadAppId_result http.HandleHTTPResponses (upstreamListingStatus 404) ClientState.fresh
        ⟨404, .value ⟨[]⟩⟩ rfl).2.1 (.leaf .NotFoundErr) (by decide) (by decide),
   (loadAppId_result http.HandleHTTPResponses (upstreamListingStatus 500) ClientState.fresh
        ⟨500, .value ⟨[]⟩⟩ rfl).2.2.1 (.leaf (.upstreamStatus 500)) (by decide) (by decide),
   (loadAppId_result http.HandleHTTPResponses (upstreamListingStatus 404) ClientState.fresh
        ⟨404, .value ⟨[]⟩⟩ rfl).2.2.2.1 (by decide),
   (loadAppId_result http.HandleHTTPResponses (upstreamListingStatus 500) ClientState.fresh
        ⟨500, .value ⟨[]⟩⟩ rfl).2.2.2.2 (by decide) (by decide)⟩

/-- C3 at concrete inputs: with the application of type `"5"` and provisioning type
`"5"` the username is returned; with the application of type `"6"` the association
error is. -/
theorem GetArn_association_witness :
    (GetArn http.HandleHTTPResponses (upstreamHealthy "5") "42" ClientState.fresh).1
      = .ret ("arn:aws:iam::123456789012:role/provisioning", none) ∧
    (GetArn http.HandleHTTPResponses (upstreamHealthy "6") "42" ClientState.fresh).1
      = .ret ("", some (.wrap ("%w for source id " ++ "42")
          (.leaf .AuthenticationSourceAssociationErr))) :=
  ⟨(GetArn_association http.HandleHTTPResponses (upstreamHealthy "5") "42"
      ClientState.fresh
      ⟨some "5", [.ListSourceAuthentications "42", .ShowApplication "7",
        .ListApplicationTypes]⟩
      200 200 [authOfSource, authOfApp7] authOfApp7 "5" "5"
      rfl (by decide) (by decide) rfl (by decide)).2.1 rfl,
   (GetArn_association http.HandleHTTPResponses (upstreamHealthy "6") "42"
      ClientState.fresh
      ⟨some "5", [.ListSourceAuthentications "42", .ShowApplication "7",
        .ListApplicationTypes]⟩
      200 200 [authOfSource, authOfApp7] authOfApp7 "6" "5"
      rfl (by decide) (by decide) rfl (by decide)).1 (by decide)⟩

/-- C4 at a concrete sequence: the first call fails on a 500 listing, the second
resolves `"5"`, the third is made while the listing would answer 404; it returns `"5"`
without a request, and the sequence has one successful listing call. -/
theorem GetProvisioningTypeId_idempotent_witness :
    (∃ r2, (callSequence http.HandleHTTPResponses
        [upstreamListingStatus 500, upstreamHealthy "5", upstreamListingStatus 404]
        ClientState.fresh)[2]? = some r2 ∧
      r2.result = ("5", none) ∧ r2.after = r2.before ∧ r2.sent = []) ∧
    successfulListings (callSequence http.HandleHTTPResponses
        [upstreamListingStatus 500, upstreamHealthy "5", upstreamListingStatus 404]
        ClientState.fresh) = 1 :=
  have h := GetProvisioningTypeId_idempotent http.HandleHTTPResponses
    [upstreamListingStatus 500, upstreamHealthy "5", upstreamListingStatus 404] 1
    ⟨("5", none), ⟨none, [.ListApplicationTypes]⟩,
      ⟨some "5", [.ListApplicationTypes, .ListApplicationTypes]⟩⟩ "5"
    (by decide) rfl
  ⟨h.1 2 (by decide) (by decide), h.2⟩

/-- C5 at a concrete input: pubkey 99 does not exist; the handler renders the
not-found response right after the lookup. -/
theorem CreateAWSReservation_pubkey_lookup_fails_witness :
    CreateAWSReservation runPubkeyMissing
      = [.Bind, .GetReservationDao, .GetPubkeyDao, .GetById 99,
         .renderError (.NewNotFoundError (.leaf (.NoRowsError "no rows")))] :=
  (CreateAWSReservation_pubkey_lookup_fails runPubkeyMissing sampleRequest
    (.leaf (.NoRowsError "no rows")) rfl rfl rfl rfl).1

/-- C6 at a concrete input: the healthy run enqueues the two jobs once. -/
theorem CreateAWSReservation_enqueues_two_jobs_witness :
    (CreateAWSReservation healthyRun).filter Event.isEnqueue
      = [.Enqueue
          [ { JobType := .TypePubkeyUploadAws
              Body := .pubkeyUpload
                { AccountID := 7, ReservationID := 1000, PubkeyID := 99,
                  ARN := "arn:aws:iam::123456789012:role/provisioning", SourceID := 42 } },
            { JobType := .TypeLaunchInstanceAws
              Body := .launchInstance
                { AccountID := 7, ReservationID := 1000, PubkeyID := 99,
                  AMI := "ami-0123",
                  ARN := "arn:aws:iam::123456789012:role/provisioning", Amount := 2,
                  InstanceType := "t3.small" } } ]] :=
  CreateAWSReservation_enqueues_two_jobs healthyRun sampleRequest ⟨99, "key"⟩ storedSample
    "arn:aws:iam::123456789012:role/provisioning" "ami-0123"
    rfl rfl rfl rfl rfl rfl (by decide) rfl rfl

/-- C8 at concrete inputs: an error wrapping `AuthenticationForSourcesNotFoundErr`
gives status 404, `MoreThenOneAuthenticationForSourceErr` gives 500, and the sources
client on a 404 authentication listing gives 404. -/
theorem CreateAWSReservation_arn_failure_status_witness :
    (∃ message, CreateAWSReservation
        (runArnFails (.wrap "get source ARN call"
          (.leaf .AuthenticationForSourcesNotFoundErr)))
      = [.Bind, .GetReservationDao, .GetPubkeyDao, .GetById 99,
         .CreateAWS { storedSample with ID := 0 }, .GetSourcesClient, .GetArn "42",
         .renderError (.ClientError "Sources" message
            (.wrap "get source ARN call" (.leaf .AuthenticationForSourcesNotFoundErr))
            404)]) ∧
    (∃ message, CreateAWSReservation
        (runArnFails (.leaf .MoreThenOneAuthenticationForSourceErr))
      = [.Bind, .GetReservationDao, .GetPubkeyDao, .GetById 99,
         .CreateAWS { storedSample with ID := 0 }, .GetSourcesClient, .GetArn "42",
         .renderError (.ClientError "Sources" message
            (.leaf .MoreThenOneAuthenticationForSourceErr) 500)]) ∧
    CreateAWSReservation (healthyRun.withSourcesClient http.HandleHTTPResponses
        (upstreamListingStatus 200) ClientState.fresh)
      = [.Bind, .GetReservationDao, .GetPubkeyDao, .GetById 99,
         .CreateAWS { storedSample with ID := 0 }, .GetSourcesClient, .GetArn "42",
         .renderError (.ClientError "Sources"
            "can't fetch arn from sources: authentication not found"
            (.wrap "get source ARN call" (.leaf .AuthenticationForSourcesNotFoundErr))
            404)] :=
  ⟨(CreateAWSReservation_arn_failure_status
      (runArnFails (.wrap "get source ARN call"
        (.leaf .AuthenticationForSourcesNotFoundErr)))
      sampleRequest ⟨99, "key"⟩ storedSample rfl rfl rfl rfl rfl rfl).1 ""
      (.wrap "get source ARN call" (.leaf .AuthenticationForSourcesNotFoundErr))
      (by decide),
   (CreateAWSReservation_arn_failure_status
      (runArnFails (.leaf .MoreThenOneAuthenticationForSourceErr))
      sampleRequest ⟨99, "key"⟩ storedSample rfl rfl rfl rfl rfl rfl).1 ""
      (.leaf .MoreThenOneAuthenticationForSourceErr) (by decide),
   (CreateAWSReservation_arn_failure_status healthyRun
      sampleRequest ⟨99, "key"⟩ storedSample rfl rfl rfl rfl rfl rfl).2
      http.HandleHTTPResponses (upstreamListingStatus 200) ClientState.fresh 404 none
      (.leaf .NotFoundErr) (by decide) (by decide) (by decide)⟩

end Provisioning
